import Mathlib

/-!
Verification of the silver pattern-analysis core: a shallow embedding of the
normalizers, feature extractor, similarity metric suite, window scanner and
outcome projector of `silver_analysis_system`, together with theorems settling
the frozen claims about them.

Conventions of the embedding:
* prices, scores and normalized values are real numbers (`ℝ`); the projector's
  aggregation, which is pure field arithmetic, is embedded over `ℚ` so that it
  is decidable on concrete inputs;
* bar timestamps (the DataFrame index) are integers (`ℤ`);
* a float `NaN` produced by degenerate input (e.g. the sample standard
  deviation of fewer than two observations, or the `inf` entries of the DTW
  cost matrix) is modelled as `none` of an `Option` type, and operations that
  would propagate the `NaN` propagate the `none`.
-/

/-- One OHLC bar, indexed by its timestamp.  Only the columns the analysis
core reads (`high`, `low`, `close`) are carried. -/
structure Bar where
  time : ℤ
  high : ℝ
  low : ℝ
  close : ℝ

instance : Inhabited Bar := ⟨⟨0, 0, 0, 0⟩⟩

/-- Mean of a list of reals (`Series.mean`). -/
noncomputable def listMean (l : List ℝ) : ℝ := l.sum / l.length

/-- Sample variance with `ddof = 1`, the pandas default for `Series.std`. -/
noncomputable def sampleVar (l : List ℝ) : ℝ :=
  (l.map (fun x => (x - listMean l) ^ 2)).sum / ((l.length : ℝ) - 1)

/-- Pandas `Series.std()` (`ddof = 1`): `NaN` — modelled `none` — on fewer
than two observations, otherwise the square root of the sample variance. -/
noncomputable def sampleStd (l : List ℝ) : Option ℝ :=
  if l.length < 2 then none else some (Real.sqrt (sampleVar l))

/-- Maximum of a list (`Series.max`); junk value `0` on the empty list, which
the sources never query. -/
noncomputable def listMax : List ℝ → ℝ
  | [] => 0
  | x :: xs => xs.foldl max x

/-- Minimum of a list (`Series.min`); junk value `0` on the empty list. -/
noncomputable def listMin : List ℝ → ℝ
  | [] => 0
  | x :: xs => xs.foldl min x

/-- Pandas `close.pct_change().dropna()`: the list of single-period relative
changes of consecutive elements. -/
noncomputable def pct_change (l : List ℝ) : List ℝ :=
  List.zipWith (fun prev cur => (cur - prev) / prev) l l.tail

namespace ImprovedPatternMatcher

/-- `normalize_price_series` of `improved_pattern_matcher.py`: percent change
relative to the first price; a degenerate single-zero array on fewer than two
points. -/
noncomputable def normalize_price_series (prices : List ℝ) : List ℝ :=
  if prices.length < 2 then [0]
  else
    let first_price := prices.headD 0
    prices.map (fun x => (x - first_price) / first_price * 100)

/-- `normalize_pattern_zscore`: z-score normalization; the input is returned
unchanged on fewer than two points, and an all-zero series replaces a flat
window (standard deviation zero). -/
noncomputable def normalize_pattern_zscore (prices : List ℝ) : List ℝ :=
  if prices.length < 2 then prices
  else
    let m := listMean prices
    let std := Real.sqrt (sampleVar prices)
    if std = 0 then List.replicate prices.length 0
    else prices.map (fun x => (x - m) / std)

/-- `normalize_pattern_minmax`: min-max normalization to the 0-1 range; the
input is returned unchanged on fewer than two points, and an all-zero series
replaces a flat window (`max == min`). -/
noncomputable def normalize_pattern_minmax (prices : List ℝ) : List ℝ :=
  if prices.length < 2 then prices
  else
    let min_price := listMin prices
    let max_price := listMax prices
    if max_price = min_price then List.replicate prices.length 0
    else prices.map (fun x => (x - min_price) / (max_price - min_price))

/-- The fixed feature record returned by `extract_pattern_features`.
`volatility` is `none` when the pandas sample standard deviation of the
returns is `NaN` (fewer than two returns, i.e. a window of fewer than three
bars). -/
structure PatternFeatures where
  total_return : ℝ
  volatility : Option ℝ
  max_gain : ℝ
  max_loss : ℝ
  trend_slope : ℝ
  direction_changes : ℕ
  up_ratio : ℝ

/-- Slope of the degree-1 least-squares fit of `ys` against the indices
`0, …, n-1` (`np.polyfit(x, y, 1)[0]` for `n ≥ 2`). -/
noncomputable def polyfit_slope (ys : List ℝ) : ℝ :=
  let n : ℝ := ys.length
  let xs : List ℝ := (List.range ys.length).map (fun i => (i : ℝ))
  let sx := xs.sum
  let sy := ys.sum
  let sxy := (List.zipWith (· * ·) xs ys).sum
  let sxx := (xs.map (fun x => x ^ 2)).sum
  (n * sxy - sx * sy) / (n * sxx - sx ^ 2)

/-- `np.sign` on a real number. -/
noncomputable def rsign (x : ℝ) : ℝ := if x < 0 then -1 else if x = 0 then 0 else 1

/-- Number of sign reversals in the first difference of `closes`
(`np.sum(np.diff(np.sign(price_changes)) != 0)`). -/
noncomputable def count_direction_changes (closes : List ℝ) : ℕ :=
  let price_changes := List.zipWith (fun prev cur => cur - prev) closes closes.tail
  let signs := price_changes.map rsign
  (List.zipWith (fun a b => decide (a ≠ b)) signs signs.tail).count true

/-- Number of bars whose close exceeds the previous close. -/
noncomputable def up_bars_count (closes : List ℝ) : ℕ :=
  (List.zipWith (fun prev cur => decide (prev < cur)) closes closes.tail).count true

/-- `extract_pattern_features`: the six scalar descriptors of a window of
OHLC bars. -/
noncomputable def extract_pattern_features (data : List Bar) : PatternFeatures :=
  let close_prices := data.map (·.close)
  let high_prices := data.map (·.high)
  let low_prices := data.map (·.low)
  let c0 := close_prices.headD 0
  let cLast := close_prices.getLastD 0
  { total_return := (cLast - c0) / c0
    volatility := sampleStd (pct_change close_prices)
    max_gain := (listMax high_prices - c0) / c0
    max_loss := (listMin low_prices - c0) / c0
    trend_slope := polyfit_slope close_prices
    direction_changes := count_direction_changes close_prices
    up_ratio :=
      if 1 < close_prices.length then
        (up_bars_count close_prices : ℝ) / ((close_prices.length : ℝ) - 1)
      else 0.5 }

/-- `calculate_shape_similarity`: Pearson correlation of the two normalized
series, clipped to non-negative values; zero on mismatched lengths, on series
shorter than three points, and on flat series (`std == 0`, where pandas would
produce a `NaN` correlation).  The pandas correlation
`cov / (std1 * std2)` is written here in the equivalent form
`Σ ca·cb / (sqrt (Σ ca²) * sqrt (Σ cb²))` over the centered series: the
`1/(n-1)` degree-of-freedom factors of covariance and standard deviations
cancel. -/
noncomputable def calculate_shape_similarity (pattern1 pattern2 : List ℝ) : ℝ :=
  if pattern1.length ≠ pattern2.length ∨ pattern1.length < 3 then 0
  else if Real.sqrt (sampleVar pattern1) = 0 ∨ Real.sqrt (sampleVar pattern2) = 0 then 0
  else
    let ca := pattern1.map (fun x => x - listMean pattern1)
    let cb := pattern2.map (fun x => x - listMean pattern2)
    let correlation := (List.zipWith (· * ·) ca cb).sum /
      (Real.sqrt ((ca.map (fun x => x ^ 2)).sum) * Real.sqrt ((cb.map (fun x => x ^ 2)).sum))
    max 0 correlation

/-- `calculate_trend_similarity`: weighted blend of decaying differences of
total return, trend slope and up-ratio. -/
noncomputable def calculate_trend_similarity (features1 features2 : PatternFeatures) : ℝ :=
  let return_diff := |features1.total_return - features2.total_return|
  let return_sim := 1 / (1 + return_diff * 10)
  let slope_diff := |features1.trend_slope - features2.trend_slope|
  let slope_sim := 1 / (1 + slope_diff * 100)
  let up_ratio_diff := |features1.up_ratio - features2.up_ratio|
  let up_ratio_sim := 1 - up_ratio_diff
  return_sim * 0.4 + slope_sim * 0.4 + up_ratio_sim * 0.2

/-- `calculate_volatility_similarity`: weighted blend of decaying differences
of volatility, max gain, max loss and turning-point count.  A `NaN`
volatility on either side (window shorter than three bars) propagates, so the
result is `none` exactly when an input volatility is undefined. -/
noncomputable def calculate_volatility_similarity (features1 features2 : PatternFeatures) :
    Option ℝ :=
  match features1.volatility, features2.volatility with
  | some v1, some v2 =>
    let vol_sim := 1 / (1 + |v1 - v2| * 50)
    let max_gain_sim := 1 / (1 + |features1.max_gain - features2.max_gain| * 10)
    let max_loss_sim := 1 / (1 + |features1.max_loss - features2.max_loss| * 10)
    let direction_sim :=
      1 / (1 + |(features1.direction_changes : ℝ) - (features2.direction_changes : ℝ)| * 0.1)
    some (vol_sim * 0.3 + max_gain_sim * 0.25 + max_loss_sim * 0.25 + direction_sim * 0.2)
  | _, _ => none

end ImprovedPatternMatcher

namespace ImprovedPatternMatcher

/-- The `PatternMatch` dataclass of `improved_pattern_matcher.py`.  The purely
cosmetic `match_method` description string is omitted.  `similarity_score`
and `volatility_similarity` are `Option`s because a `NaN` volatility
(degenerate window) would propagate into them. -/
structure PatternMatch where
  symbol : String
  timeframe : String
  similarity_score : Option ℝ
  start_index : ℕ
  end_index : ℕ
  start_time : ℤ
  end_time : ℤ
  pattern_length : ℕ
  trend_similarity : ℝ
  volatility_similarity : Option ℝ
  shape_similarity : ℝ

/-- The combined-score computation of `find_similar_patterns` (lines
383-401): the plain weighted formula `shape*0.5 + trend*0.3 + vol*0.2`,
optionally raised by the fallback heuristic
`max(combined, (trend*0.5 + vol*0.5) * 0.8)` when the shape similarity is low
but trend and volatility similarity are both high. -/
noncomputable def combine_score (shape_sim trend_sim vol_sim : ℝ) : ℝ :=
  let combined_score := shape_sim * 0.5 + trend_sim * 0.3 + vol_sim * 0.2
  if shape_sim < 0.3 ∧ trend_sim > 0.5 ∧ vol_sim > 0.5 then
    max combined_score ((trend_sim * 0.5 + vol_sim * 0.5) * 0.8)
  else combined_score

/-- `find_similar_patterns`: slide a window of `window_size` bars across
`target_data` at step 1, z-score-normalize each window, extract its features,
score it against the reference and record a `PatternMatch` per window.  A
target shorter than the window yields no matches. -/
noncomputable def find_similar_patterns (target_data : List Bar) (silver_pattern : List ℝ)
    (silver_features : PatternFeatures) (symbol timeframe : String) (window_size : ℕ) :
    List PatternMatch :=
  if target_data.length < window_size then []
  else
    (List.range (target_data.length - window_size + 1)).map (fun i =>
      let window_data := (target_data.drop i).take window_size
      let window_pattern := normalize_pattern_zscore (window_data.map (·.close))
      let window_features := extract_pattern_features window_data
      let shape_sim := calculate_shape_similarity silver_pattern window_pattern
      let trend_sim := calculate_trend_similarity silver_features window_features
      let vol_sim := calculate_volatility_similarity silver_features window_features
      { symbol := symbol
        timeframe := timeframe
        similarity_score := vol_sim.map (fun v => combine_score shape_sim trend_sim v)
        start_index := i
        end_index := i + window_size - 1
        start_time := (window_data.headD default).time
        end_time := (window_data.getLastD default).time
        pattern_length := window_size
        trend_similarity := trend_sim
        volatility_similarity := vol_sim
        shape_similarity := shape_sim })

/-- Reference-pattern length: the most recent 50 H4 bars of silver. -/
def silver_bars : ℕ := 50

/-- The reference window: `silver_data_full.iloc[-silver_bars:]`. -/
def silver_tail (silver_data_full : List Bar) : List Bar :=
  silver_data_full.drop (silver_data_full.length - silver_bars)

/-- Start timestamp of the reference window (`silver_data.index[0]`), the
exclusion boundary applied to every candidate series. -/
def silver_start_of (silver_data_full : List Bar) : ℤ :=
  ((silver_tail silver_data_full).headD default).time

/-- Python's `m.similarity_score >= min_similarity`: false when the score is
`NaN` (every comparison with a float `NaN` is false). -/
noncomputable def score_passes (min_similarity : ℝ) (m : PatternMatch) : Bool :=
  match m.similarity_score with
  | some s => decide (min_similarity ≤ s)
  | none => false

/-- Sort key used for the final ranking.  After the `min_similarity` filter
every retained score is `some`, so the key is the combined score itself. -/
noncomputable def score_key (m : PatternMatch) : ℝ := m.similarity_score.getD 0

/-- Scan of one candidate series inside the per-symbol loop of
`run_pattern_matching` (lines 494-562): skip a missing or too-short target,
drop every bar at or after the reference's start time, skip the target if
fewer than `silver_bars` bars remain, else scan and keep the matches at or
above `min_similarity`. -/
noncomputable def search_one_target (silver_pattern : List ℝ)
    (silver_features : PatternFeatures) (silver_start_time : ℤ) (min_similarity : ℝ)
    (target : String × String × Option (List Bar)) : List PatternMatch :=
  match target.2.2 with
  | none => []
  | some target_data =>
    if target_data.length < 100 then []
    else
      let remaining := target_data.filter (fun b => decide (b.time < silver_start_time))
      if remaining.length < silver_bars then []
      else
        (find_similar_patterns remaining silver_pattern silver_features
            target.1 target.2.1 silver_bars).filter (score_passes min_similarity)

/-- Python's `all_matches.sort(key=…, reverse=True)`: a stable sort into
non-increasing key order. -/
noncomputable def sort_desc {α : Type} (key : α → ℝ) (l : List α) : List α :=
  l.mergeSort (fun a b => decide (key b ≤ key a))

/-- `run_pattern_matching` of `ImprovedPatternMatcher`.  The data manager is
externalized: `silver_data_full` is what `get_data` returns for silver, and
each element of `targets` is a `(symbol, timeframe, get_data result)` triple
of the symbol/timeframe loop.  The `exclude_recent` and `show_all_top`
parameters exist in the source signature but are never read by the
computation (`show_all_top` only guards a log line). -/
noncomputable def run_pattern_matching (silver_data_full : Option (List Bar))
    (targets : List (String × String × Option (List Bar))) (top_n : ℕ)
    (min_similarity : ℝ) (exclude_recent : Bool) (show_all_top : Bool) :
    List PatternMatch :=
  match silver_data_full with
  | none => []
  | some sdf =>
    if sdf.length < silver_bars then []
    else
      let silver_data := silver_tail sdf
      let silver_pattern := normalize_pattern_zscore (silver_data.map (·.close))
      let silver_features := extract_pattern_features silver_data
      let all_matches := targets.flatMap
        (search_one_target silver_pattern silver_features (silver_start_of sdf) min_similarity)
      (sort_desc score_key all_matches).take top_n

end ImprovedPatternMatcher

/-! The DTW cost-matrix recurrence shared by
`SilverPatternMatcher.calculate_dtw_similarity` and
`RealPatternMatcher.calculate_dtw_distance`:
`D[0][0] = 0`, `D[i][0] = D[0][j] = inf` for `i, j ≥ 1`, and
`D[i][j] = |a_(i-1) - b_(j-1)| + min(D[i-1][j], D[i][j-1], D[i-1][j-1])`.
The `inf` entries of the matrix are modelled as `none`. -/

/-- Minimum on the cost matrix entries, where `none` is `inf`. -/
noncomputable def minInf : Option ℝ → Option ℝ → Option ℝ
  | none, y => y
  | some a, none => some a
  | some a, some b => some (min a b)

/-- The DTW matrix entry `D[i][j]` for patterns `pattern1`, `pattern2`. -/
noncomputable def dtwD (pattern1 pattern2 : List ℝ) : ℕ → ℕ → Option ℝ
  | 0, 0 => some 0
  | 0, _ + 1 => none
  | _ + 1, 0 => none
  | i + 1, j + 1 =>
    (minInf (dtwD pattern1 pattern2 i (j + 1))
        (minInf (dtwD pattern1 pattern2 (i + 1) j) (dtwD pattern1 pattern2 i j))).map
      (fun m => |pattern1.getD i 0 - pattern2.getD j 0| + m)
termination_by i j => (i, j)

namespace SilverPatternMatcher

/-- The `PatternMatch` dataclass of `silver_pattern_matcher.py` (without the
cosmetic `match_method` string). -/
structure PatternMatch where
  symbol : String
  timeframe : String
  similarity_score : ℝ
  start_index : ℕ
  end_index : ℕ
  start_time : ℤ
  end_time : ℤ
  pattern_length : ℕ

/-- `normalize_prices`: percent change relative to the first price; the input
is returned unchanged on fewer than two points. -/
noncomputable def normalize_prices (prices : List ℝ) : List ℝ :=
  if prices.length < 2 then prices
  else
    let first_price := prices.headD 0
    prices.map (fun x => (x - first_price) / first_price * 100)

/-- `extract_price_pattern`: normalized close series (or typical price
`(H+L+C)/3` when `use_close` is false). -/
noncomputable def extract_price_pattern (data : List Bar) (use_close : Bool := true) :
    List ℝ :=
  normalize_prices
    (if use_close then data.map (·.close) else data.map (fun b => (b.high + b.low + b.close) / 3))

/-- `calculate_euclidean_similarity`: `max(0, 1 - d / d_max)` with
`d = sqrt(Σ (a_i - b_i)^2)` and `d_max = sqrt(L * 100^2)`; zero on mismatched
lengths. -/
noncomputable def calculate_euclidean_similarity (pattern1 pattern2 : List ℝ) : ℝ :=
  if pattern1.length ≠ pattern2.length then 0
  else
    let distance := Real.sqrt ((List.zipWith (fun a b => (a - b) ^ 2) pattern1 pattern2).sum)
    let max_possible_distance := Real.sqrt ((pattern1.length : ℝ) * 100 ^ 2)
    max 0 (1 - distance / max_possible_distance)

/-- `calculate_cosine_similarity`: `(cos + 1) / 2`, with zero on mismatched
lengths or a zero-norm input. -/
noncomputable def calculate_cosine_similarity (pattern1 pattern2 : List ℝ) : ℝ :=
  if pattern1.length ≠ pattern2.length then 0
  else
    let dot_product := (List.zipWith (· * ·) pattern1 pattern2).sum
    let norm1 := Real.sqrt ((pattern1.map (fun x => x ^ 2)).sum)
    let norm2 := Real.sqrt ((pattern2.map (fun x => x ^ 2)).sum)
    if norm1 = 0 ∨ norm2 = 0 then 0
    else (dot_product / (norm1 * norm2) + 1) / 2

/-- `calculate_dtw_similarity`: `max(0, 1 - D[n][m] / (n * 100))`; zero on
mismatched lengths (and on an infinite matrix entry, where the code's
`1 - inf` is clamped to 0 by the `max`). -/
noncomputable def calculate_dtw_similarity (pattern1 pattern2 : List ℝ) : ℝ :=
  if pattern1.length ≠ pattern2.length then 0
  else
    match dtwD pattern1 pattern2 pattern1.length pattern2.length with
    | none => 0
    | some d => max 0 (1 - d / ((pattern1.length : ℝ) * 100))

/-- `calculate_pattern_correlation`: the absolute Pearson correlation; zero on
mismatched lengths, lengths below two, and whenever pandas would return `NaN`
(a zero denominator, i.e. a flat series).  As in
`ImprovedPatternMatcher.calculate_shape_similarity`, the pandas
`cov / (std1 * std2)` is written over the centered series with the
`1/(n-1)` factors cancelled. -/
noncomputable def calculate_pattern_correlation (pattern1 pattern2 : List ℝ) : ℝ :=
  if pattern1.length ≠ pattern2.length ∨ pattern1.length < 2 then 0
  else
    let ca := pattern1.map (fun x => x - listMean pattern1)
    let cb := pattern2.map (fun x => x - listMean pattern2)
    let den := Real.sqrt ((ca.map (fun x => x ^ 2)).sum) *
      Real.sqrt ((cb.map (fun x => x ^ 2)).sum)
    if den = 0 then 0
    else |(List.zipWith (· * ·) ca cb).sum / den|

/-- `find_similar_patterns` of `SilverPatternMatcher`: slide a window of
`window_size` bars across `target_data`, score it under the four metrics and
combine them with the fixed weights 0.3/0.3/0.2/0.2. -/
noncomputable def find_similar_patterns (target_data : List Bar) (silver_pattern : List ℝ)
    (symbol timeframe : String) (window_size : ℕ) : List PatternMatch :=
  if target_data.length < window_size then []
  else
    (List.range (target_data.length - window_size + 1)).map (fun i =>
      let window_data := (target_data.drop i).take window_size
      let window_pattern := extract_price_pattern window_data
      let euclidean_sim := calculate_euclidean_similarity silver_pattern window_pattern
      let cosine_sim := calculate_cosine_similarity silver_pattern window_pattern
      let correlation_sim := calculate_pattern_correlation silver_pattern window_pattern
      let dtw_sim := calculate_dtw_similarity silver_pattern window_pattern
      { symbol := symbol
        timeframe := timeframe
        similarity_score := euclidean_sim * 0.3 + cosine_sim * 0.3 +
          correlation_sim * 0.2 + dtw_sim * 0.2
        start_index := i
        end_index := i + window_size - 1
        start_time := (window_data.headD default).time
        end_time := (window_data.getLastD default).time
        pattern_length := window_size })

/-- Reference-pattern length of the silver matcher. -/
def silver_bars : ℕ := 50

/-- `run_pattern_matching` of `SilverPatternMatcher`: build the reference
pattern from the silver data, scan every available target, keep the matches
at or above `min_similarity`, sort all of them by descending combined score
and truncate to the top `top_n`.  As in the improved matcher, the data
manager is externalized into the `silver_data` and `targets` arguments. -/
noncomputable def run_pattern_matching (silver_data : Option (List Bar))
    (targets : List (String × String × Option (List Bar))) (top_n : ℕ)
    (min_similarity : ℝ) : List PatternMatch :=
  match silver_data with
  | none => []
  | some sd =>
    if sd.length < silver_bars then []
    else
      let silver_pattern := extract_price_pattern sd
      let all_matches := targets.flatMap (fun target =>
        match target.2.2 with
        | none => []
        | some target_data =>
          (find_similar_patterns target_data silver_pattern target.1 target.2.1
              silver_bars).filter (fun m => decide (min_similarity ≤ m.similarity_score)))
      (ImprovedPatternMatcher.sort_desc (fun m => m.similarity_score) all_matches).take top_n

end SilverPatternMatcher

namespace RealPatternMatcher

/-- `calculate_dtw_distance` of `real_pattern_visualizer.py`: the final DTW
matrix entry, or `inf` (`none`) on mismatched lengths. -/
noncomputable def calculate_dtw_distance (pattern1 pattern2 : List ℝ) : Option ℝ :=
  if pattern1.length ≠ pattern2.length then none
  else dtwD pattern1 pattern2 pattern1.length pattern2.length

/-- `calculate_dtw_similarity` of `real_pattern_visualizer.py`:
`max(0, min(1, 1 - D / (L * 100)))`, and zero when the distance is infinite. -/
noncomputable def calculate_dtw_similarity (pattern1 pattern2 : List ℝ) : ℝ :=
  match calculate_dtw_distance pattern1 pattern2 with
  | none => 0
  | some d => max 0 (min 1 (1 - d / ((pattern1.length : ℝ) * 100)))

end RealPatternMatcher

namespace PatternFuturePredictor

/-- The fields of the `FuturePrediction` dataclass that the ensemble
aggregation of `generate_prediction_report` reads.  `similarity_score` is the
nested `match.similarity_score` of the originating `PatternMatch`; the
post-match summary statistics are per-match percentages.  The aggregation is
pure field arithmetic, so it is embedded over `ℚ`. -/
structure FuturePrediction where
  similarity_score : ℚ
  price_change : ℚ
  max_gain : ℚ
  max_loss : ℚ
  volatility : ℚ

/-- The normalized weights of `generate_prediction_report` (lines 354-355):
each retained match's similarity score divided by the sum of all scores. -/
def prediction_weights (predictions : List FuturePrediction) : List ℚ :=
  let total := (predictions.map (·.similarity_score)).sum
  predictions.map (fun p => p.similarity_score / total)

/-- Similarity-weighted mean of the final price changes (line 357). -/
def weighted_change (predictions : List FuturePrediction) : ℚ :=
  (List.zipWith (fun (p : FuturePrediction) w => p.price_change * w)
    predictions (prediction_weights predictions)).sum

/-- Similarity-weighted mean of the max favorable excursions (line 358). -/
def weighted_max_gain (predictions : List FuturePrediction) : ℚ :=
  (List.zipWith (fun (p : FuturePrediction) w => p.max_gain * w)
    predictions (prediction_weights predictions)).sum

/-- Similarity-weighted mean of the max adverse excursions (line 359). -/
def weighted_max_loss (predictions : List FuturePrediction) : ℚ :=
  (List.zipWith (fun (p : FuturePrediction) w => p.max_loss * w)
    predictions (prediction_weights predictions)).sum

/-- Similarity-weighted mean of the trajectory volatilities (line 360). -/
def weighted_volatility (predictions : List FuturePrediction) : ℚ :=
  (List.zipWith (fun (p : FuturePrediction) w => p.volatility * w)
    predictions (prediction_weights predictions)).sum

end PatternFuturePredictor

/-! Helper lemmas about the list extrema used by the min-max normalizer. -/

lemma foldl_min_le_init (xs : List ℝ) : ∀ a : ℝ, xs.foldl min a ≤ a := by
  induction xs with
  | nil => intro a; exact le_rfl
  | cons x xs ih =>
    intro a
    calc (x :: xs).foldl min a = xs.foldl min (min a x) := rfl
    _ ≤ min a x := ih (min a x)
    _ ≤ a := min_le_left _ _

lemma foldl_min_le_mem (xs : List ℝ) : ∀ (a x : ℝ), x ∈ xs → xs.foldl min a ≤ x := by
  induction xs with
  | nil => intro a x hx; cases hx
  | cons y ys ih =>
    intro a x hx
    rcases List.mem_cons.mp hx with rfl | hmem
    · calc (x :: ys).foldl min a = ys.foldl min (min a x) := rfl
      _ ≤ min a x := foldl_min_le_init ys (min a x)
      _ ≤ x := min_le_right _ _
    · exact ih (min a y) x hmem

lemma init_le_foldl_max (xs : List ℝ) : ∀ a : ℝ, a ≤ xs.foldl max a := by
  induction xs with
  | nil => intro a; exact le_rfl
  | cons x xs ih =>
    intro a
    calc a ≤ max a x := le_max_left _ _
    _ ≤ xs.foldl max (max a x) := ih (max a x)
    _ = (x :: xs).foldl max a := rfl

lemma mem_le_foldl_max (xs : List ℝ) : ∀ (a x : ℝ), x ∈ xs → x ≤ xs.foldl max a := by
  induction xs with
  | nil => intro a x hx; cases hx
  | cons y ys ih =>
    intro a x hx
    rcases List.mem_cons.mp hx with rfl | hmem
    · calc x ≤ max a x := le_max_right _ _
      _ ≤ ys.foldl max (max a x) := init_le_foldl_max ys (max a x)
      _ = (x :: ys).foldl max a := rfl
    · exact ih (max a y) x hmem

lemma listMin_le_of_mem {l : List ℝ} {x : ℝ} (hx : x ∈ l) : listMin l ≤ x := by
  cases l with
  | nil => cases hx
  | cons y ys =>
    rcases List.mem_cons.mp hx with rfl | hmem
    · exact foldl_min_le_init ys x
    · exact foldl_min_le_mem ys y x hmem

lemma le_listMax_of_mem {l : List ℝ} {x : ℝ} (hx : x ∈ l) : x ≤ listMax l := by
  cases l with
  | nil => cases hx
  | cons y ys =>
    rcases List.mem_cons.mp hx with rfl | hmem
    · exact init_le_foldl_max ys x
    · exact mem_le_foldl_max ys y x hmem

lemma getD_map_of_lt (f : ℝ → ℝ) (l : List ℝ) (i : ℕ) (d : ℝ) (h : i < l.length) :
    (l.map f).getD i d = f (l.getD i d) := by
  rw [List.getD_eq_getElem?_getD, List.getD_eq_getElem?_getD, List.getElem?_map,
    List.getElem?_eq_getElem h]
  rfl

/-- Claim C4: for every window scored by the improved matcher, the final
combined score is at least the plain weighted formula
`shape*0.5 + trend*0.3 + vol*0.2`; the fallback heuristic (alternative score
`trend*0.5 + vol*0.5`, damped by `0.8` and combined via `max`) never
decreases the score. -/
theorem C4_fallback_never_decreases_score (shape_sim trend_sim vol_sim : ℝ) :
    shape_sim * 0.5 + trend_sim * 0.3 + vol_sim * 0.2 ≤
      ImprovedPatternMatcher.combine_score shape_sim trend_sim vol_sim := by
  unfold ImprovedPatternMatcher.combine_score
  dsimp only
  split
  · exact le_max_left _ _
  · exact le_rfl

/-- Witness for C4 at a concrete scored window. -/
theorem C4_fallback_never_decreases_score_witness :
    (0.2 : ℝ) * 0.5 + 0.6 * 0.3 + 0.7 * 0.2 ≤
      ImprovedPatternMatcher.combine_score 0.2 0.6 0.7 :=
  C4_fallback_never_decreases_score 0.2 0.6 0.7

/-- Claim C10: `run_pattern_matching` of the improved matcher returns the
same match list whether `exclude_recent` is `True` or `False`: the
overlap-exclusion filter is applied unconditionally and the parameter is
never read. -/
theorem C10_exclude_recent_has_no_effect (silver_data_full : Option (List Bar))
    (targets : List (String × String × Option (List Bar))) (top_n : ℕ)
    (min_similarity : ℝ) (show_all_top : Bool) :
    ImprovedPatternMatcher.run_pattern_matching silver_data_full targets top_n
        min_similarity true show_all_top =
      ImprovedPatternMatcher.run_pattern_matching silver_data_full targets top_n
        min_similarity false show_all_top := rfl

/-- Counterexample to claim C9 as stated: the silver matcher's percent-change
normalization does not return a degenerate single-zero sequence on an input
with fewer than 2 points — it returns the input unchanged. -/
theorem C9_counterexample :
    SilverPatternMatcher.normalize_prices [(5 : ℝ)] ≠ [(0 : ℝ)] := by
  have h : SilverPatternMatcher.normalize_prices [(5 : ℝ)] = [(5 : ℝ)] := by
    unfold SilverPatternMatcher.normalize_prices
    norm_num
  rw [h]
  intro hc
  have : (5 : ℝ) = 0 := List.head_eq_of_cons_eq hc
  norm_num at this

/-- Claim C9, amended: both percent-change normalizers return
`y_i = (x_i - x_0) / x_0 * 100` on every input of length ≥ 2 with `x_0 ≠ 0`;
on fewer than 2 points, the improved matcher's `normalize_price_series`
returns the degenerate single-zero sequence while the silver matcher's
`normalize_prices` returns the input unchanged. -/
theorem C9_percent_change_normalization :
    (∀ prices : List ℝ, prices.headD 0 ≠ 0 → 2 ≤ prices.length →
      ImprovedPatternMatcher.normalize_price_series prices =
        prices.map (fun x => (x - prices.headD 0) / prices.headD 0 * 100) ∧
      SilverPatternMatcher.normalize_prices prices =
        prices.map (fun x => (x - prices.headD 0) / prices.headD 0 * 100)) ∧
    (∀ prices : List ℝ, prices.length < 2 →
      ImprovedPatternMatcher.normalize_price_series prices = [0] ∧
      SilverPatternMatcher.normalize_prices prices = prices) := by
  constructor
  · intro prices _ h2
    constructor
    · unfold ImprovedPatternMatcher.normalize_price_series
      rw [if_neg (by omega)]
    · unfold SilverPatternMatcher.normalize_prices
      rw [if_neg (by omega)]
  · intro prices h2
    constructor
    · unfold ImprovedPatternMatcher.normalize_price_series
      rw [if_pos h2]
    · unfold SilverPatternMatcher.normalize_prices
      rw [if_pos h2]

/-- Witness for C9 at concrete inputs: a two-point series with nonzero first
element, and a one-point series for the degenerate branch. -/
theorem C9_percent_change_normalization_witness :
    (ImprovedPatternMatcher.normalize_price_series [(1 : ℝ), 3] =
        [(1 : ℝ), 3].map (fun x => (x - [(1 : ℝ), 3].headD 0) / [(1 : ℝ), 3].headD 0 * 100) ∧
      SilverPatternMatcher.normalize_prices [(1 : ℝ), 3] =
        [(1 : ℝ), 3].map (fun x => (x - [(1 : ℝ), 3].headD 0) / [(1 : ℝ), 3].headD 0 * 100)) ∧
    (ImprovedPatternMatcher.normalize_price_series [(7 : ℝ)] = [0] ∧
      SilverPatternMatcher.normalize_prices [(7 : ℝ)] = [(7 : ℝ)]) :=
  ⟨C9_percent_change_normalization.1 [(1 : ℝ), 3] (by norm_num) (by norm_num),
    C9_percent_change_normalization.2 [(7 : ℝ)] (by norm_num)⟩

/-- Counterexample to claim C6 as stated: on the length-1 input `[5]`,
min-max normalization returns the input unchanged, so its values do not all
lie in `[0, 1]`. -/
theorem C6_counterexample :
    ¬ (∀ y ∈ ImprovedPatternMatcher.normalize_pattern_minmax [(5 : ℝ)], 0 ≤ y ∧ y ≤ 1) := by
  intro h
  have hmem : (5 : ℝ) ∈ ImprovedPatternMatcher.normalize_pattern_minmax [(5 : ℝ)] := by
    unfold ImprovedPatternMatcher.normalize_pattern_minmax
    norm_num
  have := (h 5 hmem).2
  norm_num at this

/-- Claim C6, amended: for any input of length ≥ 2, min-max normalization
returns a same-length sequence with all values in `[0, 1]`, positions of the
input minimum mapping to 0 and positions of the input maximum mapping to 1,
with the all-zeros fallback when `max == min`; a length-1 input is returned
unchanged by the code, not normalized. -/
theorem C6_minmax_normalization (prices : List ℝ) (h2 : 2 ≤ prices.length) :
    (ImprovedPatternMatcher.normalize_pattern_minmax prices).length = prices.length ∧
    (listMax prices = listMin prices →
      ImprovedPatternMatcher.normalize_pattern_minmax prices =
        List.replicate prices.length 0) ∧
    (listMax prices ≠ listMin prices →
      (∀ y ∈ ImprovedPatternMatcher.normalize_pattern_minmax prices, 0 ≤ y ∧ y ≤ 1) ∧
      (∀ i : ℕ, i < prices.length → prices.getD i 0 = listMin prices →
        (ImprovedPatternMatcher.normalize_pattern_minmax prices).getD i 0 = 0) ∧
      (∀ i : ℕ, i < prices.length → prices.getD i 0 = listMax prices →
        (ImprovedPatternMatcher.normalize_pattern_minmax prices).getD i 0 = 1)) := by
  have hne : prices ≠ [] := by
    intro h; rw [h] at h2; simp at h2
  have hnorm : ImprovedPatternMatcher.normalize_pattern_minmax prices =
      if listMax prices = listMin prices then List.replicate prices.length 0
      else prices.map (fun x => (x - listMin prices) / (listMax prices - listMin prices)) := by
    unfold ImprovedPatternMatcher.normalize_pattern_minmax
    rw [if_neg (by omega)]
  have hminmax : listMin prices ≤ listMax prices := by
    obtain ⟨x, xs, rfl⟩ := List.exists_cons_of_ne_nil hne
    exact le_trans (listMin_le_of_mem (List.mem_cons_self x xs))
      (le_listMax_of_mem (List.mem_cons_self x xs))
  refine ⟨?_, ?_, ?_⟩
  · rw [hnorm]
    split
    · exact List.length_replicate _ _
    · exact List.length_map _ _
  · intro heq
    rw [hnorm, if_pos heq]
  · intro hneq
    have hlt : listMin prices < listMax prices := lt_of_le_of_ne hminmax (Ne.symm hneq)
    have hpos : 0 < listMax prices - listMin prices := by linarith
    rw [hnorm, if_neg hneq]
    refine ⟨?_, ?_, ?_⟩
    · intro y hy
      obtain ⟨x, hxmem, rfl⟩ := List.mem_map.mp hy
      constructor
      · exact div_nonneg (by linarith [listMin_le_of_mem hxmem]) (le_of_lt hpos)
      · rw [div_le_one hpos]
        linarith [le_listMax_of_mem hxmem]
    · intro i hi hval
      rw [getD_map_of_lt _ _ _ _ hi, hval, sub_self, zero_div]
    · intro i hi hval
      rw [getD_map_of_lt _ _ _ _ hi, hval, div_self (ne_of_gt hpos)]

/-- Witness for C6 at the concrete input `[0, 1]`. -/
theorem C6_minmax_normalization_witness :
    (ImprovedPatternMatcher.normalize_pattern_minmax [(0 : ℝ), 1]).length =
      [(0 : ℝ), 1].length ∧
    (listMax [(0 : ℝ), 1] = listMin [(0 : ℝ), 1] →
      ImprovedPatternMatcher.normalize_pattern_minmax [(0 : ℝ), 1] =
        List.replicate [(0 : ℝ), 1].length 0) ∧
    (listMax [(0 : ℝ), 1] ≠ listMin [(0 : ℝ), 1] →
      (∀ y ∈ ImprovedPatternMatcher.normalize_pattern_minmax [(0 : ℝ), 1], 0 ≤ y ∧ y ≤ 1) ∧
      (∀ i : ℕ, i < [(0 : ℝ), 1].length → [(0 : ℝ), 1].getD i 0 = listMin [(0 : ℝ), 1] →
        (ImprovedPatternMatcher.normalize_pattern_minmax [(0 : ℝ), 1]).getD i 0 = 0) ∧
      (∀ i : ℕ, i < [(0 : ℝ), 1].length → [(0 : ℝ), 1].getD i 0 = listMax [(0 : ℝ), 1] →
        (ImprovedPatternMatcher.normalize_pattern_minmax [(0 : ℝ), 1]).getD i 0 = 1)) :=
  C6_minmax_normalization [(0 : ℝ), 1] (by norm_num)

lemma pct_change_length (l : List ℝ) : (pct_change l).length = l.length - 1 := by
  simp [pct_change]

/-- Counterexample to claim C8 as stated: on a two-bar window (L < 3) the
volatility feature is the pandas `NaN` (modelled `none`), not the defined
value 0. -/
theorem C8_counterexample :
    (ImprovedPatternMatcher.extract_pattern_features
        [⟨0, 0, 0, 10⟩, ⟨1, 0, 0, 11⟩]).volatility = none ∧
    (ImprovedPatternMatcher.extract_pattern_features
        [⟨0, 0, 0, 10⟩, ⟨1, 0, 0, 11⟩]).volatility ≠ some 0 := by
  have h : (ImprovedPatternMatcher.extract_pattern_features
      [⟨0, 0, 0, 10⟩, ⟨1, 0, 0, 11⟩]).volatility = none := rfl
  exact ⟨h, by rw [h]; exact fun hc => Option.noConfusion hc⟩

/-- Claim C8, amended: the volatility feature equals the pandas sample
standard deviation of the single-period percent changes of close when the
window has at least 3 bars, and is the undefined/`NaN` value (`none`), not 0,
when the window has fewer than 3 bars. -/
theorem C8_volatility_feature (data : List Bar) :
    (3 ≤ data.length → (ImprovedPatternMatcher.extract_pattern_features data).volatility =
      some (Real.sqrt (sampleVar (pct_change (data.map (·.close)))))) ∧
    (data.length < 3 →
      (ImprovedPatternMatcher.extract_pattern_features data).volatility = none) := by
  have hvol : (ImprovedPatternMatcher.extract_pattern_features data).volatility =
      sampleStd (pct_change (data.map (·.close))) := rfl
  have hlen : (pct_change (data.map (·.close))).length = data.length - 1 := by
    rw [pct_change_length, List.length_map]
  constructor
  · intro h3
    rw [hvol]
    unfold sampleStd
    rw [if_neg (by omega)]
  · intro h3
    rw [hvol]
    unfold sampleStd
    rw [if_pos (by omega)]

/-- Witness for C8 at concrete windows of 3 bars and 1 bar. -/
theorem C8_volatility_feature_witness :
    (ImprovedPatternMatcher.extract_pattern_features
        [⟨0, 0, 0, 10⟩, ⟨1, 0, 0, 12⟩, ⟨2, 0, 0, 9⟩]).volatility =
      some (Real.sqrt (sampleVar (pct_change
        (([⟨0, 0, 0, 10⟩, ⟨1, 0, 0, 12⟩, ⟨2, 0, 0, 9⟩] : List Bar).map (·.close))))) ∧
    (ImprovedPatternMatcher.extract_pattern_features [⟨0, 0, 0, 10⟩]).volatility = none :=
  ⟨(C8_volatility_feature _).1 (by decide), (C8_volatility_feature _).2 (by decide)⟩

/-! Lemmas about the DTW recurrence. -/

lemma minInf_some {x y : Option ℝ} {m : ℝ} (h : minInf x y = some m) :
    x = some m ∨ y = some m ∨ ∃ a b, x = some a ∧ y = some b ∧ m = min a b := by
  cases x with
  | none => cases y with
    | none => simp [minInf] at h
    | some b => simp [minInf] at h; exact Or.inr (Or.inl (by rw [h]))
  | some a => cases y with
    | none => simp [minInf] at h; exact Or.inl (by rw [h])
    | some b =>
      simp [minInf] at h
      exact Or.inr (Or.inr ⟨a, b, rfl, rfl, h.symm⟩)

lemma dtwD_nonneg (pattern1 pattern2 : List ℝ) :
    ∀ i j d, dtwD pattern1 pattern2 i j = some d → 0 ≤ d := by
  intro i
  induction i with
  | zero =>
    intro j d h
    cases j with
    | zero => rw [dtwD] at h; injection h with h'; exact h' ▸ le_rfl
    | succ j => rw [dtwD] at h; cases h
  | succ i ih =>
    intro j
    induction j with
    | zero => intro d h; rw [dtwD] at h; cases h
    | succ j ihj =>
      intro d h
      rw [dtwD] at h
      obtain ⟨m, hm, rfl⟩ := Option.map_eq_some'.mp h
      have hmnn : 0 ≤ m := by
        rcases minInf_some hm with h1 | h1 | ⟨a, b, ha, hb, rfl⟩
        · exact ih (j + 1) m h1
        · rcases minInf_some h1 with h2 | h2 | ⟨a, b, ha, hb, rfl⟩
          · exact ihj m h2
          · exact ih j m h2
          · exact le_min (ihj a ha) (ih j b hb)
        · rcases minInf_some hb with h2 | h2 | ⟨c, e, hc, he, rfl⟩
          · exact le_min (ih (j + 1) a ha) (ihj b h2)
          · exact le_min (ih (j + 1) a ha) (ih j b h2)
          · exact le_min (ih (j + 1) a ha) (le_min (ihj c hc) (ih j e he))
      positivity

lemma minInf_some_zero {x : Option ℝ} (hx : ∀ d, x = some d → 0 ≤ d) :
    minInf x (some 0) = some 0 := by
  cases x with
  | none => rfl
  | some a =>
    have := hx a rfl
    simp [minInf, min_eq_right this]

lemma dtwD_diag_self (a : List ℝ) : ∀ i : ℕ, dtwD a a i i = some 0 := by
  intro i
  induction i with
  | zero => rw [dtwD]
  | succ i ih =>
    rw [dtwD]
    have h1 : minInf (dtwD a a (i + 1) i) (dtwD a a i i) = some 0 := by
      rw [ih]
      exact minInf_some_zero (fun d h => dtwD_nonneg a a (i + 1) i d h)
    have h2 : minInf (dtwD a a i (i + 1))
        (minInf (dtwD a a (i + 1) i) (dtwD a a i i)) = some 0 := by
      rw [h1]
      exact minInf_some_zero (fun d h => dtwD_nonneg a a i (i + 1) d h)
    rw [h2]
    simp

/-- Claim C5: the DTW dissimilarity of any sequence against itself, computed
by the shared cost-matrix recurrence, is exactly 0, and hence the DTW
similarity of a sequence against itself is 1 in both the silver matcher and
the visualizer's matcher (for nonempty sequences, where the conversion's
denominator `L * 100` is nonzero). -/
theorem C5_dtw_self_similarity (a : List ℝ) :
    dtwD a a a.length a.length = some 0 ∧
    RealPatternMatcher.calculate_dtw_distance a a = some 0 ∧
    (1 ≤ a.length →
      SilverPatternMatcher.calculate_dtw_similarity a a = 1 ∧
      RealPatternMatcher.calculate_dtw_similarity a a = 1) := by
  have hdiag : dtwD a a a.length a.length = some 0 := dtwD_diag_self a a.length
  have hdist : RealPatternMatcher.calculate_dtw_distance a a = some 0 := by
    unfold RealPatternMatcher.calculate_dtw_distance
    rw [if_neg (by simp)]
    exact hdiag
  refine ⟨hdiag, hdist, ?_⟩
  intro _
  constructor
  · unfold SilverPatternMatcher.calculate_dtw_similarity
    rw [if_neg (by simp), hdiag]
    norm_num
  · unfold RealPatternMatcher.calculate_dtw_similarity
    rw [hdist]
    norm_num

/-- Witness for C5 at the concrete sequence `[3, 1]`. -/
theorem C5_dtw_self_similarity_witness :
    dtwD [(3 : ℝ), 1] [(3 : ℝ), 1] [(3 : ℝ), 1].length [(3 : ℝ), 1].length = some 0 ∧
    RealPatternMatcher.calculate_dtw_distance [(3 : ℝ), 1] [(3 : ℝ), 1] = some 0 ∧
    (SilverPatternMatcher.calculate_dtw_similarity [(3 : ℝ), 1] [(3 : ℝ), 1] = 1 ∧
      RealPatternMatcher.calculate_dtw_similarity [(3 : ℝ), 1] [(3 : ℝ), 1] = 1) :=
  ⟨(C5_dtw_self_similarity [(3 : ℝ), 1]).1, (C5_dtw_self_similarity [(3 : ℝ), 1]).2.1,
    (C5_dtw_self_similarity [(3 : ℝ), 1]).2.2 (by norm_num)⟩

lemma weighted_sum_eq_mean (f : PatternFuturePredictor.FuturePrediction → ℚ)
    (predictions : List PatternFuturePredictor.FuturePrediction) (s : ℚ)
    (hne : predictions ≠ [])
    (hall : ∀ p ∈ predictions, p.similarity_score = s) (hs : s ≠ 0) :
    (List.zipWith (fun (p : PatternFuturePredictor.FuturePrediction) w => f p * w)
        predictions (PatternFuturePredictor.prediction_weights predictions)).sum =
      (predictions.map f).sum / predictions.length := by
  have hn : (predictions.length : ℚ) ≠ 0 :=
    Nat.cast_ne_zero.mpr (Nat.pos_iff_ne_zero.mp (List.length_pos.mpr hne))
  have htotal : (predictions.map (·.similarity_score)).sum = predictions.length * s := by
    rw [List.map_congr_left (fun p hp => hall p hp), List.map_const']
    rw [List.sum_replicate, nsmul_eq_mul]
  have hweights : PatternFuturePredictor.prediction_weights predictions =
      predictions.map (fun _ => 1 / (predictions.length : ℚ)) := by
    unfold PatternFuturePredictor.prediction_weights
    refine List.map_congr_left (fun p hp => ?_)
    rw [htotal, hall p hp]
    field_simp
    ring
  rw [hweights, List.zipWith_map_right, List.zipWith_same]
  have : (predictions.map (fun p => f p * (1 / (predictions.length : ℚ)))).sum =
      (predictions.map f).sum * (1 / (predictions.length : ℚ)) :=
    List.sum_map_mul_right _ _ _
  rw [this]
  field_simp

/-- Claim C7: when every retained match in the ensemble has the same
similarity score, the projector's similarity-weighted means of final change,
max favorable excursion, max adverse excursion and volatility equal the plain
arithmetic means over the matches. -/
theorem C7_equal_scores_give_plain_mean
    (predictions : List PatternFuturePredictor.FuturePrediction) (s : ℚ)
    (hne : predictions ≠ [])
    (hall : ∀ p ∈ predictions, p.similarity_score = s) (hs : s ≠ 0) :
    PatternFuturePredictor.weighted_change predictions =
      (predictions.map (·.price_change)).sum / predictions.length ∧
    PatternFuturePredictor.weighted_max_gain predictions =
      (predictions.map (·.max_gain)).sum / predictions.length ∧
    PatternFuturePredictor.weighted_max_loss predictions =
      (predictions.map (·.max_loss)).sum / predictions.length ∧
    PatternFuturePredictor.weighted_volatility predictions =
      (predictions.map (·.volatility)).sum / predictions.length :=
  ⟨weighted_sum_eq_mean (·.price_change) predictions s hne hall hs,
    weighted_sum_eq_mean (·.max_gain) predictions s hne hall hs,
    weighted_sum_eq_mean (·.max_loss) predictions s hne hall hs,
    weighted_sum_eq_mean (·.volatility) predictions s hne hall hs⟩

/-- Witness for C7 on a concrete two-match ensemble with equal scores. -/
theorem C7_equal_scores_give_plain_mean_witness :
    PatternFuturePredictor.weighted_change
        [⟨1, 3, 4, -2, 5⟩, ⟨1, 1, 2, -1, 3⟩] =
      (([⟨1, 3, 4, -2, 5⟩, ⟨1, 1, 2, -1, 3⟩] :
          List PatternFuturePredictor.FuturePrediction).map (·.price_change)).sum /
        ([⟨1, 3, 4, -2, 5⟩, ⟨1, 1, 2, -1, 3⟩] :
          List PatternFuturePredictor.FuturePrediction).length ∧
    PatternFuturePredictor.weighted_max_gain
        [⟨1, 3, 4, -2, 5⟩, ⟨1, 1, 2, -1, 3⟩] =
      (([⟨1, 3, 4, -2, 5⟩, ⟨1, 1, 2, -1, 3⟩] :
          List PatternFuturePredictor.FuturePrediction).map (·.max_gain)).sum /
        ([⟨1, 3, 4, -2, 5⟩, ⟨1, 1, 2, -1, 3⟩] :
          List PatternFuturePredictor.FuturePrediction).length ∧
    PatternFuturePredictor.weighted_max_loss
        [⟨1, 3, 4, -2, 5⟩, ⟨1, 1, 2, -1, 3⟩] =
      (([⟨1, 3, 4, -2, 5⟩, ⟨1, 1, 2, -1, 3⟩] :
          List PatternFuturePredictor.FuturePrediction).map (·.max_loss)).sum /
        ([⟨1, 3, 4, -2, 5⟩, ⟨1, 1, 2, -1, 3⟩] :
          List PatternFuturePredictor.FuturePrediction).length ∧
    PatternFuturePredictor.weighted_volatility
        [⟨1, 3, 4, -2, 5⟩, ⟨1, 1, 2, -1, 3⟩] =
      (([⟨1, 3, 4, -2, 5⟩, ⟨1, 1, 2, -1, 3⟩] :
          List PatternFuturePredictor.FuturePrediction).map (·.volatility)).sum /
        ([⟨1, 3, 4, -2, 5⟩, ⟨1, 1, 2, -1, 3⟩] :
          List PatternFuturePredictor.FuturePrediction).length :=
  C7_equal_scores_give_plain_mean [⟨1, 3, 4, -2, 5⟩, ⟨1, 1, 2, -1, 3⟩] 1
    (by simp) (by
      intro p hp
      simp only [List.mem_cons, List.not_mem_nil, or_false] at hp
      rcases hp with rfl | rfl <;> rfl) one_ne_zero

/-! Lemmas about the scanner pipeline. -/

lemma getLastD_mem {α : Type} : ∀ (l : List α) (d : α), l ≠ [] → l.getLastD d ∈ l := by
  intro l
  induction l with
  | nil => intro d h; exact absurd rfl h
  | cons x xs ih =>
    intro d _
    rw [List.getLastD_cons]
    cases hxs : xs with
    | nil => simp
    | cons y ys =>
      have hne : xs ≠ [] := by rw [hxs]; exact List.cons_ne_nil y ys
      have := ih x hne
      rw [hxs] at this
      exact List.mem_cons_of_mem x this

lemma pairwise_sort_desc {α : Type} (key : α → ℝ) (l : List α) :
    (ImprovedPatternMatcher.sort_desc key l).Pairwise (fun a b => key b ≤ key a) := by
  unfold ImprovedPatternMatcher.sort_desc
  refine (List.sorted_mergeSort ?_ ?_ l).imp (fun hab => by simpa using hab)
  · intro a b c h1 h2
    simp only [decide_eq_true_eq] at h1 h2 ⊢
    exact le_trans h2 h1
  · intro a b
    simp only [Bool.or_eq_true, decide_eq_true_eq]
    exact le_total (key b) (key a)

lemma mem_sort_desc {α : Type} {key : α → ℝ} {l : List α} {a : α} :
    a ∈ ImprovedPatternMatcher.sort_desc key l ↔ a ∈ l := by
  unfold ImprovedPatternMatcher.sort_desc
  exact List.mem_mergeSort

lemma score_passes_isSome {min_similarity : ℝ} {m : ImprovedPatternMatcher.PatternMatch}
    (h : ImprovedPatternMatcher.score_passes min_similarity m = true) :
    m.similarity_score.isSome = true := by
  unfold ImprovedPatternMatcher.score_passes at h
  cases hs : m.similarity_score with
  | none => rw [hs] at h; cases h
  | some s => simp [hs]

lemma end_time_mem_find {td : List Bar} {sp : List ℝ}
    {sf : ImprovedPatternMatcher.PatternFeatures} {sym tf : String} {ws : ℕ}
    {m : ImprovedPatternMatcher.PatternMatch} (hws : 1 ≤ ws)
    (hm : m ∈ ImprovedPatternMatcher.find_similar_patterns td sp sf sym tf ws) :
    ∃ b ∈ td, m.end_time = b.time := by
  unfold ImprovedPatternMatcher.find_similar_patterns at hm
  split at hm
  · cases hm
  · rename_i hlen
    obtain ⟨i, hi, rfl⟩ := List.mem_map.mp hm
    rw [List.mem_range] at hi
    set w := (td.drop i).take ws with hw
    have hwlen : w.length = ws := by
      rw [hw, List.length_take, List.length_drop]
      omega
    have hne : w ≠ [] := by
      intro hnil
      rw [hnil] at hwlen
      simp at hwlen
      omega
    refine ⟨w.getLastD default, ?_, rfl⟩
    exact List.mem_of_mem_drop (List.mem_of_mem_take (getLastD_mem w default hne))

lemma mem_search_one_target {sp : List ℝ} {sf : ImprovedPatternMatcher.PatternFeatures}
    {st : ℤ} {ms : ℝ} {t : String × String × Option (List Bar)}
    {m : ImprovedPatternMatcher.PatternMatch}
    (hm : m ∈ ImprovedPatternMatcher.search_one_target sp sf st ms t) :
    ImprovedPatternMatcher.score_passes ms m = true ∧ m.end_time < st := by
  unfold ImprovedPatternMatcher.search_one_target at hm
  cases ht : t.2.2 with
  | none => rw [ht] at hm; cases hm
  | some td =>
    rw [ht] at hm
    dsimp only at hm
    split at hm
    · cases hm
    · split at hm
      · cases hm
      · obtain ⟨hmem, hpass⟩ := List.mem_filter.mp hm
        refine ⟨hpass, ?_⟩
        obtain ⟨b, hb, hbt⟩ := end_time_mem_find (by decide) hmem
        obtain ⟨_, hb2⟩ := List.mem_filter.mp hb
        rw [hbt]
        exact of_decide_eq_true hb2

/-- Claim C2: for every run of either scanner, the returned list of match
results is sorted in non-increasing order of `similarity_score` and its
length is at most `top_n`.  For the improved matcher every returned score has
additionally passed the threshold filter, so it is a defined (non-`NaN`)
value and the sort key `score_key` coincides with it. -/
theorem C2_scanner_sorted_and_truncated :
    (∀ (silver_data_full : Option (List Bar))
        (targets : List (String × String × Option (List Bar))) (top_n : ℕ)
        (min_similarity : ℝ) (exclude_recent show_all_top : Bool),
      (ImprovedPatternMatcher.run_pattern_matching silver_data_full targets top_n
          min_similarity exclude_recent show_all_top).Pairwise
        (fun m₁ m₂ => ImprovedPatternMatcher.score_key m₂ ≤
          ImprovedPatternMatcher.score_key m₁) ∧
      (ImprovedPatternMatcher.run_pattern_matching silver_data_full targets top_n
          min_similarity exclude_recent show_all_top).length ≤ top_n ∧
      (ImprovedPatternMatcher.run_pattern_matching silver_data_full targets top_n
          min_similarity exclude_recent show_all_top).all
        (fun m => m.similarity_score.isSome) = true) ∧
    (∀ (silver_data : Option (List Bar))
        (targets : List (String × String × Option (List Bar))) (top_n : ℕ)
        (min_similarity : ℝ),
      (SilverPatternMatcher.run_pattern_matching silver_data targets top_n
          min_similarity).Pairwise
        (fun m₁ m₂ => m₂.similarity_score ≤ m₁.similarity_score) ∧
      (SilverPatternMatcher.run_pattern_matching silver_data targets top_n
          min_similarity).length ≤ top_n) := by
  constructor
  · intro silver_data_full targets top_n min_similarity exclude_recent show_all_top
    unfold ImprovedPatternMatcher.run_pattern_matching
    cases silver_data_full with
    | none => simp
    | some sdf =>
      dsimp only
      split
      · simp
      · refine ⟨?_, ?_, ?_⟩
        · exact List.Pairwise.sublist (List.take_sublist _ _) (pairwise_sort_desc _ _)
        · rw [List.length_take]
          exact min_le_left _ _
        · rw [List.all_eq_true]
          intro m hm
          have hm2 := mem_sort_desc.mp (List.mem_of_mem_take hm)
          obtain ⟨t, _, hmt⟩ := List.mem_flatMap.mp hm2
          exact score_passes_isSome (mem_search_one_target hmt).1
  · intro silver_data targets top_n min_similarity
    unfold SilverPatternMatcher.run_pattern_matching
    cases silver_data with
    | none => simp
    | some sd =>
      dsimp only
      split
      · simp
      · constructor
        · exact List.Pairwise.sublist (List.take_sublist _ _)
            (pairwise_sort_desc
              (fun m : SilverPatternMatcher.PatternMatch => m.similarity_score) _)
        · rw [List.length_take]
          exact min_le_left _ _

/-- Claim C3: every candidate bar with timestamp at or after the exclusion
boundary (the reference pattern's own start time) is dropped before
scanning, so no match returned by the improved scanner has an end timestamp
at or after that boundary. -/
theorem C3_no_match_ends_at_or_after_boundary (sdf : List Bar)
    (targets : List (String × String × Option (List Bar))) (top_n : ℕ)
    (min_similarity : ℝ) (exclude_recent show_all_top : Bool) :
    (ImprovedPatternMatcher.run_pattern_matching (some sdf) targets top_n
        min_similarity exclude_recent show_all_top).all
      (fun m => decide (m.end_time < ImprovedPatternMatcher.silver_start_of sdf)) = true := by
  unfold ImprovedPatternMatcher.run_pattern_matching
  dsimp only
  split
  · simp
  · rw [List.all_eq_true]
    intro m hm
    have hm2 := mem_sort_desc.mp (List.mem_of_mem_take hm)
    obtain ⟨t, _, hmt⟩ := List.mem_flatMap.mp hm2
    exact decide_eq_true (mem_search_one_target hmt).2

/-! Cauchy-Schwarz for list sums, and the resulting metric bounds. -/

lemma sum_map_sq_nonneg (l : List ℝ) : 0 ≤ (l.map (fun x => x ^ 2)).sum := by
  apply List.sum_nonneg
  intro x hx
  obtain ⟨y, _, rfl⟩ := List.mem_map.mp hx
  positivity

lemma zipWith_mul_sq_le (a : List ℝ) : ∀ b : List ℝ,
    ((List.zipWith (· * ·) a b).sum) ^ 2 ≤
      ((a.map (fun x => x ^ 2)).sum) * ((b.map (fun x => x ^ 2)).sum) := by
  induction a with
  | nil => intro b; simp
  | cons x xs ih =>
    intro b
    cases b with
    | nil => simp
    | cons y ys =>
      have h := ih ys
      have ha := sum_map_sq_nonneg xs
      have hb := sum_map_sq_nonneg ys
      simp only [List.zipWith_cons_cons, List.map_cons, List.sum_cons]
      set d := (List.zipWith (· * ·) xs ys).sum with hd
      set Sa := (xs.map (fun x => x ^ 2)).sum with hSa
      set Sb := (ys.map (fun x => x ^ 2)).sum with hSb
      rcases eq_or_lt_of_le ha with hzero | hpos
      · have hdz : d = 0 := by
          have h0 : d ^ 2 ≤ 0 := by rw [← hzero] at h; simpa using h
          have h1 : 0 ≤ d ^ 2 := sq_nonneg d
          have : d ^ 2 = 0 := le_antisymm h0 h1
          exact pow_eq_zero_iff (two_ne_zero) |>.mp this
        rw [hdz, ← hzero]
        nlinarith [mul_nonneg (sq_nonneg x) hb, sq_nonneg y, sq_nonneg x]
      · nlinarith [sq_nonneg (x * d - y * Sa), mul_nonneg (mul_nonneg (le_of_lt hpos) hb)
          (sq_nonneg x), mul_pos hpos hpos, sq_nonneg (x * y), sq_nonneg d]

lemma abs_zipWith_mul_le (a b : List ℝ) :
    |(List.zipWith (· * ·) a b).sum| ≤
      Real.sqrt ((a.map (fun x => x ^ 2)).sum) * Real.sqrt ((b.map (fun x => x ^ 2)).sum) := by
  have h := Real.sqrt_le_sqrt (zipWith_mul_sq_le a b)
  rw [Real.sqrt_sq_eq_abs, Real.sqrt_mul (sum_map_sq_nonneg a)] at h
  exact h

lemma euclidean_similarity_bounds (pattern1 pattern2 : List ℝ) :
    0 ≤ SilverPatternMatcher.calculate_euclidean_similarity pattern1 pattern2 ∧
      SilverPatternMatcher.calculate_euclidean_similarity pattern1 pattern2 ≤ 1 := by
  unfold SilverPatternMatcher.calculate_euclidean_similarity
  split
  · norm_num
  · dsimp only
    refine ⟨le_max_left _ _, max_le (by norm_num) ?_⟩
    have h : 0 ≤ Real.sqrt ((List.zipWith (fun a b => (a - b) ^ 2) pattern1 pattern2).sum) /
        Real.sqrt ((pattern1.length : ℝ) * 100 ^ 2) :=
      div_nonneg (Real.sqrt_nonneg _) (Real.sqrt_nonneg _)
    linarith

lemma cosine_similarity_bounds (pattern1 pattern2 : List ℝ) :
    0 ≤ SilverPatternMatcher.calculate_cosine_similarity pattern1 pattern2 ∧
      SilverPatternMatcher.calculate_cosine_similarity pattern1 pattern2 ≤ 1 := by
  unfold SilverPatternMatcher.calculate_cosine_similarity
  split
  · norm_num
  · dsimp only
    split
    · norm_num
    · rename_i hnorm
      push_neg at hnorm
      have h1 : 0 < Real.sqrt ((pattern1.map (fun x => x ^ 2)).sum) :=
        lt_of_le_of_ne (Real.sqrt_nonneg _) (Ne.symm hnorm.1)
      have h2 : 0 < Real.sqrt ((pattern2.map (fun x => x ^ 2)).sum) :=
        lt_of_le_of_ne (Real.sqrt_nonneg _) (Ne.symm hnorm.2)
      have habs : |(List.zipWith (· * ·) pattern1 pattern2).sum /
          (Real.sqrt ((pattern1.map (fun x => x ^ 2)).sum) *
            Real.sqrt ((pattern2.map (fun x => x ^ 2)).sum))| ≤ 1 := by
        rw [abs_div, abs_of_pos (mul_pos h1 h2)]
        exact (div_le_one (mul_pos h1 h2)).mpr (abs_zipWith_mul_le pattern1 pattern2)
      rw [abs_le] at habs
      constructor <;> linarith [habs.1, habs.2]

lemma dtw_similarity_bounds (pattern1 pattern2 : List ℝ) :
    0 ≤ SilverPatternMatcher.calculate_dtw_similarity pattern1 pattern2 ∧
      SilverPatternMatcher.calculate_dtw_similarity pattern1 pattern2 ≤ 1 := by
  unfold SilverPatternMatcher.calculate_dtw_similarity
  split
  · norm_num
  · cases hD : dtwD pattern1 pattern2 pattern1.length pattern2.length with
    | none => norm_num
    | some d =>
      have hd := dtwD_nonneg pattern1 pattern2 _ _ d hD
      refine ⟨le_max_left _ _, max_le (by norm_num) ?_⟩
      have h : 0 ≤ d / ((pattern1.length : ℝ) * 100) := div_nonneg hd (by positivity)
      linarith

lemma correlation_bounds (pattern1 pattern2 : List ℝ) :
    0 ≤ SilverPatternMatcher.calculate_pattern_correlation pattern1 pattern2 ∧
      SilverPatternMatcher.calculate_pattern_correlation pattern1 pattern2 ≤ 1 := by
  unfold SilverPatternMatcher.calculate_pattern_correlation
  split
  · norm_num
  · dsimp only
    split
    · norm_num
    · rename_i hden
      have hnn : 0 ≤ Real.sqrt (((pattern1.map (fun x => x - listMean pattern1)).map
            (fun x => x ^ 2)).sum) *
          Real.sqrt (((pattern2.map (fun x => x - listMean pattern2)).map
            (fun x => x ^ 2)).sum) :=
        mul_nonneg (Real.sqrt_nonneg _) (Real.sqrt_nonneg _)
      have hpos := lt_of_le_of_ne hnn (Ne.symm hden)
      refine ⟨abs_nonneg _, ?_⟩
      rw [abs_div, abs_of_pos hpos]
      exact (div_le_one hpos).mpr (abs_zipWith_mul_le _ _)

lemma decay_bounds {t : ℝ} (ht : 0 ≤ t) : 0 ≤ 1 / (1 + t) ∧ 1 / (1 + t) ≤ 1 := by
  have h1 : (0 : ℝ) < 1 + t := by linarith
  exact ⟨le_of_lt (by positivity), by rw [div_le_one h1]; linarith⟩

lemma up_ratio_bounds (data : List Bar) :
    0 ≤ (ImprovedPatternMatcher.extract_pattern_features data).up_ratio ∧
      (ImprovedPatternMatcher.extract_pattern_features data).up_ratio ≤ 1 := by
  have heq : (ImprovedPatternMatcher.extract_pattern_features data).up_ratio =
      if 1 < (data.map (·.close)).length then
        (ImprovedPatternMatcher.up_bars_count (data.map (·.close)) : ℝ) /
          (((data.map (·.close)).length : ℝ) - 1)
      else 0.5 := rfl
  rw [heq]
  split
  · rename_i hlen
    set closes := data.map (·.close) with hc
    have hcount : ImprovedPatternMatcher.up_bars_count closes ≤ closes.length - 1 := by
      unfold ImprovedPatternMatcher.up_bars_count
      calc (List.zipWith (fun prev cur => decide (prev < cur)) closes closes.tail).count true ≤
          (List.zipWith (fun prev cur => decide (prev < cur)) closes closes.tail).length :=
            List.count_le_length _ _
      _ = min closes.length closes.tail.length := List.length_zipWith _ _ _
      _ ≤ closes.tail.length := min_le_right _ _
      _ = closes.length - 1 := List.length_tail _
    have hn : (1 : ℝ) < (closes.length : ℝ) := by exact_mod_cast hlen
    constructor
    · exact div_nonneg (by positivity) (by linarith)
    · rw [div_le_one (by linarith)]
      calc (ImprovedPatternMatcher.up_bars_count closes : ℝ) ≤
          ((closes.length - 1 : ℕ) : ℝ) := by exact_mod_cast hcount
      _ = (closes.length : ℝ) - 1 := by
          rw [Nat.cast_sub (by omega)]
          norm_num
  · norm_num

lemma trend_similarity_bounds (w1 w2 : List Bar) :
    0 ≤ ImprovedPatternMatcher.calculate_trend_similarity
        (ImprovedPatternMatcher.extract_pattern_features w1)
        (ImprovedPatternMatcher.extract_pattern_features w2) ∧
      ImprovedPatternMatcher.calculate_trend_similarity
        (ImprovedPatternMatcher.extract_pattern_features w1)
        (ImprovedPatternMatcher.extract_pattern_features w2) ≤ 1 := by
  obtain ⟨hu1l, hu1r⟩ := up_ratio_bounds w1
  obtain ⟨hu2l, hu2r⟩ := up_ratio_bounds w2
  unfold ImprovedPatternMatcher.calculate_trend_similarity
  dsimp only
  obtain ⟨hr1, hr2⟩ := decay_bounds (show (0 : ℝ) ≤
    |(ImprovedPatternMatcher.extract_pattern_features w1).total_return -
      (ImprovedPatternMatcher.extract_pattern_features w2).total_return| * 10 by positivity)
  obtain ⟨hs1, hs2⟩ := decay_bounds (show (0 : ℝ) ≤
    |(ImprovedPatternMatcher.extract_pattern_features w1).trend_slope -
      (ImprovedPatternMatcher.extract_pattern_features w2).trend_slope| * 100 by positivity)
  have hu : |(ImprovedPatternMatcher.extract_pattern_features w1).up_ratio -
      (ImprovedPatternMatcher.extract_pattern_features w2).up_ratio| ≤ 1 :=
    abs_le.mpr ⟨by linarith, by linarith⟩
  have hu0 : 0 ≤ |(ImprovedPatternMatcher.extract_pattern_features w1).up_ratio -
      (ImprovedPatternMatcher.extract_pattern_features w2).up_ratio| := abs_nonneg _
  constructor <;> linarith

lemma volatility_similarity_some_bounds (f1 f2 : ImprovedPatternMatcher.PatternFeatures)
    (v1 v2 : ℝ) (h1 : f1.volatility = some v1) (h2 : f2.volatility = some v2) :
    ∃ v, ImprovedPatternMatcher.calculate_volatility_similarity f1 f2 = some v ∧
      0 ≤ v ∧ v ≤ 1 := by
  unfold ImprovedPatternMatcher.calculate_volatility_similarity
  rw [h1, h2]
  refine ⟨_, rfl, ?_, ?_⟩ <;>
  · obtain ⟨ha1, ha2⟩ := decay_bounds (show (0 : ℝ) ≤ |v1 - v2| * 50 by positivity)
    obtain ⟨hb1, hb2⟩ := decay_bounds
      (show (0 : ℝ) ≤ |f1.max_gain - f2.max_gain| * 10 by positivity)
    obtain ⟨hc1, hc2⟩ := decay_bounds
      (show (0 : ℝ) ≤ |f1.max_loss - f2.max_loss| * 10 by positivity)
    obtain ⟨hd1, hd2⟩ := decay_bounds (show (0 : ℝ) ≤
      |(f1.direction_changes : ℝ) - (f2.direction_changes : ℝ)| * 0.1 by positivity)
    linarith

lemma extract_volatility_some {data : List Bar} (h3 : 3 ≤ data.length) :
    ∃ v, (ImprovedPatternMatcher.extract_pattern_features data).volatility = some v := by
  have heq : (ImprovedPatternMatcher.extract_pattern_features data).volatility =
      sampleStd (pct_change (data.map (·.close))) := rfl
  rw [heq]
  unfold sampleStd
  rw [if_neg (by rw [pct_change_length, List.length_map]; omega)]
  exact ⟨_, rfl⟩

/-- Claim C1: every similarity metric of the suite — Euclidean-shape,
cosine-shape, DTW-shape, correlation-shape, feature-based trend similarity
and feature-based volatility similarity — returns a value in the closed
interval `[0, 1]` on equal-length, finite-valued inputs (nonempty where the
conversion divides by a length-derived bound, and windows of at least three
bars for the volatility features, which are otherwise `NaN`). -/
theorem C1_similarity_metrics_bounded :
    (∀ pattern1 pattern2 : List ℝ, 1 ≤ pattern1.length →
      0 ≤ SilverPatternMatcher.calculate_euclidean_similarity pattern1 pattern2 ∧
        SilverPatternMatcher.calculate_euclidean_similarity pattern1 pattern2 ≤ 1) ∧
    (∀ pattern1 pattern2 : List ℝ,
      0 ≤ SilverPatternMatcher.calculate_cosine_similarity pattern1 pattern2 ∧
        SilverPatternMatcher.calculate_cosine_similarity pattern1 pattern2 ≤ 1) ∧
    (∀ pattern1 pattern2 : List ℝ, pattern1.length = pattern2.length →
      1 ≤ pattern1.length →
      0 ≤ SilverPatternMatcher.calculate_dtw_similarity pattern1 pattern2 ∧
        SilverPatternMatcher.calculate_dtw_similarity pattern1 pattern2 ≤ 1) ∧
    (∀ pattern1 pattern2 : List ℝ,
      0 ≤ SilverPatternMatcher.calculate_pattern_correlation pattern1 pattern2 ∧
        SilverPatternMatcher.calculate_pattern_correlation pattern1 pattern2 ≤ 1) ∧
    (∀ w1 w2 : List Bar,
      0 ≤ ImprovedPatternMatcher.calculate_trend_similarity
          (ImprovedPatternMatcher.extract_pattern_features w1)
          (ImprovedPatternMatcher.extract_pattern_features w2) ∧
        ImprovedPatternMatcher.calculate_trend_similarity
          (ImprovedPatternMatcher.extract_pattern_features w1)
          (ImprovedPatternMatcher.extract_pattern_features w2) ≤ 1) ∧
    (∀ w1 w2 : List Bar, 3 ≤ w1.length → 3 ≤ w2.length →
      ∃ v, ImprovedPatternMatcher.calculate_volatility_similarity
          (ImprovedPatternMatcher.extract_pattern_features w1)
          (ImprovedPatternMatcher.extract_pattern_features w2) = some v ∧
        0 ≤ v ∧ v ≤ 1) :=
  ⟨fun pattern1 pattern2 _ => euclidean_similarity_bounds pattern1 pattern2,
    fun pattern1 pattern2 => cosine_similarity_bounds pattern1 pattern2,
    fun pattern1 pattern2 _ _ => dtw_similarity_bounds pattern1 pattern2,
    fun pattern1 pattern2 => correlation_bounds pattern1 pattern2,
    fun w1 w2 => trend_similarity_bounds w1 w2,
    fun w1 w2 h1 h2 => by
      obtain ⟨v1, hv1⟩ := extract_volatility_some h1
      obtain ⟨v2, hv2⟩ := extract_volatility_some h2
      exact volatility_similarity_some_bounds _ _ v1 v2 hv1 hv2⟩

/-- Witness for C1 at concrete series and concrete three-bar windows. -/
theorem C1_similarity_metrics_bounded_witness :
    (0 ≤ SilverPatternMatcher.calculate_euclidean_similarity [(0 : ℝ), 2] [(1 : ℝ), 5] ∧
      SilverPatternMatcher.calculate_euclidean_similarity [(0 : ℝ), 2] [(1 : ℝ), 5] ≤ 1) ∧
    (0 ≤ SilverPatternMatcher.calculate_cosine_similarity [(0 : ℝ), 2] [(1 : ℝ), 5] ∧
      SilverPatternMatcher.calculate_cosine_similarity [(0 : ℝ), 2] [(1 : ℝ), 5] ≤ 1) ∧
    (0 ≤ SilverPatternMatcher.calculate_dtw_similarity [(0 : ℝ), 2] [(1 : ℝ), 5] ∧
      SilverPatternMatcher.calculate_dtw_similarity [(0 : ℝ), 2] [(1 : ℝ), 5] ≤ 1) ∧
    (0 ≤ SilverPatternMatcher.calculate_pattern_correlation [(0 : ℝ), 2] [(1 : ℝ), 5] ∧
      SilverPatternMatcher.calculate_pattern_correlation [(0 : ℝ), 2] [(1 : ℝ), 5] ≤ 1) ∧
    (0 ≤ ImprovedPatternMatcher.calculate_trend_similarity
        (ImprovedPatternMatcher.extract_pattern_features
          [⟨0, 2, 1, 1⟩, ⟨1, 3, 1, 2⟩, ⟨2, 3, 2, 3⟩])
        (ImprovedPatternMatcher.extract_pattern_features
          [⟨0, 4, 2, 3⟩, ⟨1, 4, 1, 2⟩, ⟨2, 5, 2, 4⟩]) ∧
      ImprovedPatternMatcher.calculate_trend_similarity
        (ImprovedPatternMatcher.extract_pattern_features
          [⟨0, 2, 1, 1⟩, ⟨1, 3, 1, 2⟩, ⟨2, 3, 2, 3⟩])
        (ImprovedPatternMatcher.extract_pattern_features
          [⟨0, 4, 2, 3⟩, ⟨1, 4, 1, 2⟩, ⟨2, 5, 2, 4⟩]) ≤ 1) ∧
    (∃ v, ImprovedPatternMatcher.calculate_volatility_similarity
        (ImprovedPatternMatcher.extract_pattern_features
          [⟨0, 2, 1, 1⟩, ⟨1, 3, 1, 2⟩, ⟨2, 3, 2, 3⟩])
        (ImprovedPatternMatcher.extract_pattern_features
          [⟨0, 4, 2, 3⟩, ⟨1, 4, 1, 2⟩, ⟨2, 5, 2, 4⟩]) = some v ∧
      0 ≤ v ∧ v ≤ 1) :=
  ⟨C1_similarity_metrics_bounded.1 [(0 : ℝ), 2] [(1 : ℝ), 5] (by norm_num),
    C1_similarity_metrics_bounded.2.1 [(0 : ℝ), 2] [(1 : ℝ), 5],
    C1_similarity_metrics_bounded.2.2.1 [(0 : ℝ), 2] [(1 : ℝ), 5] rfl (by norm_num),
    C1_similarity_metrics_bounded.2.2.2.1 [(0 : ℝ), 2] [(1 : ℝ), 5],
    C1_similarity_metrics_bounded.2.2.2.2.1
      [⟨0, 2, 1, 1⟩, ⟨1, 3, 1, 2⟩, ⟨2, 3, 2, 3⟩] [⟨0, 4, 2, 3⟩, ⟨1, 4, 1, 2⟩, ⟨2, 5, 2, 4⟩],
    C1_similarity_metrics_bounded.2.2.2.2.2
      [⟨0, 2, 1, 1⟩, ⟨1, 3, 1, 2⟩, ⟨2, 3, 2, 3⟩] [⟨0, 4, 2, 3⟩, ⟨1, 4, 1, 2⟩, ⟨2, 5, 2, 4⟩]
      (by decide) (by decide)⟩
